import Mathlib

/-!
Shallow embedding of `src/service-worker.js` (rss-fundacional service worker).

The script registers install / activate / fetch handlers and three
stale-while-revalidate caching strategies.  We model:

* the URL classification of the `fetch` listener (lines 42-58);
* the three strategies `staleWhileRevalidateFeed`, `staleWhileRevalidateManifest`
  and `staleWhileRevalidate` (lines 64-181), with the Cache Store, the network
  fetch outcome and JSON parsing made explicit;
* `isNewerVersion` (lines 187-208);
* the install handler's `cache.addAll` pre-caching (lines 14-23).

Promises are modelled by their settled outcome: an async function that can
reject returns `Except String α` (`error` = the returned promise rejects).
-/

namespace SW

/-! ## JavaScript values appearing as manifest `version` fields -/

/-- A JavaScript value as it can appear in a manifest's `version` field and in
the arguments of `isNewerVersion`: `null`/`undefined` (collapsed into one
constructor, both falsy and both lacking `.split`), a string, or a number
(modelled as an integer). -/
inductive JSVal where
  | null : JSVal
  | str : String → JSVal
  | num : Int → JSVal
deriving DecidableEq, Repr

/-- JavaScript falsiness of a `JSVal`: `null`/`undefined`, the empty string and
the number `0` are falsy (`!v` is true exactly on these). -/
def jsFalsy : JSVal → Bool
  | .null => true
  | .str s => s == ""
  | .num n => n == 0

/-! ## `String.split('.')` and `Number` on segments

Kernel-reducible (structural) re-implementations, so that concrete claims can
be settled by `decide`/`rfl`. -/

/-- JavaScript `s.split(sep)` on a character list: splits at every occurrence
of `sep`; the empty list yields `[[]]` (JS: `"".split('.') = [""]`). -/
def splitOnChar (sep : Char) : List Char → List (List Char)
  | [] => [[]]
  | c :: cs =>
    let rest := splitOnChar sep cs
    if c = sep then [] :: rest
    else
      match rest with
      | r :: rs => (c :: r) :: rs
      | [] => [[c]]

/-- Value of a non-empty run of decimal digits, accumulator style; `none` if a
non-digit is met. -/
def decDigitsVal (acc : Nat) : List Char → Option Nat
  | [] => some acc
  | c :: cs => if c.isDigit then decDigitsVal (acc * 10 + (c.toNat - 48)) cs else none

/-- Model of `Number(seg) || 0` for one version segment `seg`:
`Number("")` is `0`; a decimal integer literal (optional leading `-`) parses to
its value; every other segment gives `NaN`, and `NaN || 0` is `0` at the use
sites `fresh[i] || 0` / `cached[i] || 0` of the source.  (Exotic numeric
literal forms — hex, exponents, surrounding whitespace — are outside the
version-string domain of the program and are modelled by the `0` fallback.) -/
def jsNumSeg (s : List Char) : Int :=
  match s with
  | [] => 0
  | '-' :: c :: cs =>
    match decDigitsVal 0 (c :: cs) with
    | some n => -(n : Int)
    | none => 0
  | cs =>
    match decDigitsVal 0 cs with
    | some n => (n : Int)
    | none => 0

/-- `freshVersion.split('.').map(Number)`, with the `|| 0` fallback of the use
sites already applied to each segment (`NaN` and out-of-range indices both read
as `0` in the source's loop). -/
def parseSegs (s : String) : List Int :=
  (splitOnChar '.' s.data).map jsNumSeg

/-- The comparison loop of `isNewerVersion` once `fresh` is exhausted:
`freshPart` is `0` (out-of-range `fresh[i] || 0`), `cachedPart` runs over the
remaining cached segments. -/
def cmpNil : List Int → Bool
  | [] => false
  | c :: cs => if 0 > c then true else if 0 < c then false else cmpNil cs

/-- The `for` loop of `isNewerVersion` (source lines 195-203): positional
comparison up to the longer list, missing positions reading as `0`; the first
position where the values differ decides; all ties give `false`. -/
def cmpSegs : List Int → List Int → Bool
  | [], cs => cmpNil cs
  | f :: fs, [] => if f > 0 then true else if f < 0 then false else cmpSegs fs []
  | f :: fs, c :: cs => if f > c then true else if f < c then false else cmpSegs fs cs

/-- `isNewerVersion(freshVersion, cachedVersion)` (source lines 187-208):
falsy cached → `true`; falsy fresh → `false`; two strings → split/compare;
a non-string truthy argument makes `.split` throw a `TypeError`, which the
`try`/`catch` turns into `false`. -/
def isNewerVersion (freshVersion cachedVersion : JSVal) : Bool :=
  if jsFalsy cachedVersion then true
  else if jsFalsy freshVersion then false
  else
    match freshVersion, cachedVersion with
    | .str f, .str c => cmpSegs (parseSegs f) (parseSegs c)
    | _, _ => false

/-! ## URL classification (fetch listener, lines 42-58) -/

/-- Characters after the first `"://"` of an URL string, `none` if absent. -/
def afterScheme : List Char → Option (List Char)
  | ':' :: '/' :: '/' :: rest => some rest
  | _ :: cs => afterScheme cs
  | [] => none

/-- `new URL(href).hostname`: the text between `"://"` and the next `/`. -/
def urlHostname (href : String) : String :=
  match afterScheme href.data with
  | some rest => ⟨rest.takeWhile (fun c => c ≠ '/')⟩
  | none => ""

/-- `new URL(href).pathname`: from the first `/` after the host to the end
(`"/"` when the URL has no path). -/
def urlPathname (href : String) : String :=
  match afterScheme href.data with
  | some rest =>
    match rest.dropWhile (fun c => c ≠ '/') with
    | [] => "/"
    | path => ⟨path⟩
  | none => ""

/-- JavaScript `hay.includes(needle)`: substring test. -/
def containsSub (needle hay : List Char) : Bool :=
  match hay with
  | [] => needle.isEmpty
  | c :: t => needle.isPrefixOf (c :: t) || containsSub needle t

/-- `MANIFEST_URL` (source line 5). -/
def MANIFEST_URL : String :=
  "https://raw.githubusercontent.com/JuanLuisClaure/rss-fundacional/main/manifest.json"

/-- The three caching strategies a request can be dispatched to. -/
inductive Strategy where
  | feed | manifest | generic
deriving DecidableEq, Repr

/-- The first condition of the fetch listener (line 47):
`url.hostname === 'raw.githubusercontent.com' && url.pathname.includes('rss')`. -/
def feedCond (requestUrl : String) : Bool :=
  urlHostname requestUrl == "raw.githubusercontent.com"
    && containsSub "rss".data (urlPathname requestUrl).data

/-- The fetch listener's dispatch (lines 42-58): the feed condition is tested
first, then `url.href === MANIFEST_URL`, else the generic strategy. -/
def classify (requestUrl : String) : Strategy :=
  if feedCond requestUrl then .feed
  else if requestUrl == MANIFEST_URL then .manifest
  else .generic

/-! ## The Cache Store and the network collaborators -/

/-- A request, as the strategies see it: its URL string and HTTP method. -/
structure Request where
  url : String
  method : String
deriving DecidableEq, Repr

/-- A response snapshot: status code and body text.  (`response.clone()` only
lets the same immutable snapshot be read twice; clones need no modelling.) -/
structure Response where
  status : Nat
  body : String
deriving DecidableEq, Repr

/-- The Cache Store of one cache namespace: request identity (URL) → stored
response, most recent entry first. -/
abbrev Cache := List (String × Response)

/-- `cache.match(request)` of the Cache API: resolves with the stored response
for the request's URL; with no `ignoreMethod` option, a request whose method is
not `GET` never matches and the promise resolves with `undefined`. -/
def cacheMatch (cache : Cache) (request : Request) : Option Response :=
  if request.method == "GET" then
    (cache.find? (fun e => e.1 == request.url)).map (fun e => e.2)
  else none

/-- `cache.put(request, response)` of the Cache API: stores the response under
the request's URL, overwriting any previous entry.  For a request whose method
is not `GET`, `put` returns a promise rejected with a `TypeError` and stores
nothing; the source never awaits or handles this promise (fire-and-forget), so
the rejection has no further effect and the store is simply unchanged. -/
def cachePut (cache : Cache) (request : Request) (response : Response) : Cache :=
  if request.method == "GET" then
    (request.url, response) :: cache.filter (fun e => e.1 != request.url)
  else cache

/-- The settled outcome of `fetch(request)`: a response, or a rejection with an
error message. -/
inductive FetchOutcome where
  | success : Response → FetchOutcome
  | failure : String → FetchOutcome
deriving DecidableEq, Repr

/-- A message broadcast to the clients (`notifyClientsOfUpdate` /
`notifyClientsOfVersionUpdate`, lines 213-239); the wall-clock `timestamp`
field carries no information the strategies depend on and is omitted. -/
inductive Notification where
  | feedUpdated : String → Notification
  | manifestVersionUpdated : JSVal → JSVal → Notification
deriving DecidableEq, Repr

/-- What one strategy invocation produces once every involved promise has
settled: the value the strategy's promise settles with (`Except.error` = the
promise rejects), the Cache Store after the background revalidation, and the
notifications broadcast. -/
structure StrategyResult where
  response : Except String Response
  cache : Cache
  notifications : List Notification
deriving Repr

/-! ## The three strategies

In each strategy the source builds `fetchPromise = fetch(request).then(...)`
and ends with `return cachedResponse || fetchPromise`.  Only the awaited
`cache.match` (and, in the manifest strategy, the awaited parse of the cached
body, which has its own inner `catch`) runs inside the `try`; the returned
`fetchPromise` is not awaited there, so when the fetch rejects and no cached
response exists the async function's promise adopts that rejection and the
`catch` block (the 503 fallback) never runs.  The model therefore propagates
the fetch error in that case. -/

/-- `staleWhileRevalidate(request)` (source lines 156-181), the generic
strategy, evaluated against a Cache Store and a settled fetch outcome. -/
def staleWhileRevalidate (request : Request) (cache : Cache)
    (fetchOutcome : FetchOutcome) : StrategyResult :=
  let cachedResponse := cacheMatch cache request
  match fetchOutcome with
  | .success response =>
    let cache' :=
      if request.method == "GET" && response.status == 200 then
        cachePut cache request response
      else cache
    { response := .ok (cachedResponse.getD response)
      cache := cache'
      notifications := [] }
  | .failure err =>
    { response :=
        match cachedResponse with
        | some r => .ok r
        | none => .error err
      cache := cache
      notifications := [] }

/-- `staleWhileRevalidateFeed(request)` (source lines 64-94): like the generic
strategy but the cache write is guarded only by `response.status === 200` (the
method guard lives in `cachePut`, see there), and a successful 200 refetch also
broadcasts a `FEED_UPDATED` notification. -/
def staleWhileRevalidateFeed (request : Request) (cache : Cache)
    (fetchOutcome : FetchOutcome) : StrategyResult :=
  let cachedResponse := cacheMatch cache request
  match fetchOutcome with
  | .success response =>
    if response.status == 200 then
      { response := .ok (cachedResponse.getD response)
        cache := cachePut cache request response
        notifications := [.feedUpdated request.url] }
    else
      { response := .ok (cachedResponse.getD response)
        cache := cache
        notifications := [] }
  | .failure err =>
    { response :=
        match cachedResponse with
        | some r => .ok r
        | none => .error err
      cache := cache
      notifications := [] }

/-- The `version` field the source reads from a cached manifest
(lines 104-115): a parse failure of `cachedResponse.clone().json()` is caught
by the inner `catch` and leaves `cachedVersion = null`; so does an absent
cached response.  `parse` models `response.json()` followed by reading
`.version` (`none` = the JSON parse rejects; `some v` = the field's value,
`JSVal.null` when absent). -/
def cachedVersionOf (parse : Response → Option JSVal) (cache : Cache)
    (request : Request) : JSVal :=
  match cacheMatch cache request with
  | some cr => (parse cr).getD JSVal.null
  | none => JSVal.null

/-- `staleWhileRevalidateManifest(request)` (source lines 100-151): on a 200
fetch, parse the fresh `version`; if it is newer than the cached one, write the
cache and broadcast `MANIFEST_VERSION_UPDATED`; if it is not newer, do nothing
besides returning the response; if the fresh parse fails, cache the response
anyway. -/
def staleWhileRevalidateManifest (parse : Response → Option JSVal)
    (request : Request) (cache : Cache) (fetchOutcome : FetchOutcome) :
    StrategyResult :=
  let cachedResponse := cacheMatch cache request
  let cachedVersion := cachedVersionOf parse cache request
  match fetchOutcome with
  | .success response =>
    if response.status == 200 then
      match parse response with
      | some freshVersion =>
        if isNewerVersion freshVersion cachedVersion then
          { response := .ok (cachedResponse.getD response)
            cache := cachePut cache request response
            notifications := [.manifestVersionUpdated freshVersion cachedVersion] }
        else
          { response := .ok (cachedResponse.getD response)
            cache := cache
            notifications := [] }
      | none =>
        { response := .ok (cachedResponse.getD response)
          cache := cachePut cache request response
          notifications := [] }
    else
      { response := .ok (cachedResponse.getD response)
        cache := cache
        notifications := [] }
  | .failure err =>
    { response :=
        match cachedResponse with
        | some r => .ok r
        | none => .error err
      cache := cache
      notifications := [] }

/-! ## Install handler (lines 14-23) -/

/-- `CRITICAL_ASSETS` (source lines 6-11). -/
def CRITICAL_ASSETS : List String := ["/", "/index.html", "/styles.css", "/app.js"]

/-- Whether one asset fetch lets `cache.addAll` proceed: the Cache API rejects
the whole batch when a fetch rejects or a response is not ok (2xx). -/
def fetchOk : FetchOutcome → Bool
  | .success r => 200 ≤ r.status && r.status ≤ 299
  | .failure _ => false

/-- `cache.addAll(urls)` of the Cache API: fetches every URL (as a `GET`) and
performs one atomic batch write; if any fetch fails or returns a non-ok
response the returned promise rejects and nothing at all is written. -/
def addAll (cache : Cache) (urls : List String)
    (fetchResults : String → FetchOutcome) : Except String Cache :=
  if urls.all (fun u => fetchOk (fetchResults u)) then
    .ok (urls.foldl
      (fun c u =>
        match fetchResults u with
        | .success r => cachePut c { url := u, method := "GET" } r
        | .failure _ => c)
      cache)
  else .error "addAll failed"

/-- What the install listener leaves behind: the Cache Store, whether
`event.waitUntil`'s promise resolved (install completed), and whether
`self.skipWaiting()` was invoked. -/
structure InstallResult where
  cache : Cache
  completed : Bool
  skipWaiting : Bool
deriving DecidableEq, Repr

/-- The install listener (source lines 14-23): `cache.addAll(CRITICAL_ASSETS)`
with the rejection swallowed by `.catch(err => console.warn(...))`, so install
always completes; `self.skipWaiting()` is called unconditionally. -/
def installHandler (cache : Cache) (fetchResults : String → FetchOutcome) :
    InstallResult :=
  match addAll cache CRITICAL_ASSETS fetchResults with
  | .ok cache' => { cache := cache', completed := true, skipWaiting := true }
  | .error _ => { cache := cache, completed := true, skipWaiting := true }

/-! ## Message handler -/

/-- State the message listener can change: whether `self.skipWaiting()` has
been invoked (forced immediate activation). -/
structure WorkerState where
  skipWaitingCalled : Bool
deriving DecidableEq, Repr

/-- Modelled from the spec: the `message` event listener is in the repository's
second service-worker variant, which is not under `src/`; per the spec,
"Messages accepted from application instances: `{type: "SKIP_WAITING"}` →
forces immediate activation", i.e. the listener invokes `self.skipWaiting()`
exactly on messages whose `type` is `"SKIP_WAITING"`. -/
def messageHandler (msgType : String) (s : WorkerState) : WorkerState :=
  if msgType == "SKIP_WAITING" then { s with skipWaitingCalled := true } else s

end SW

namespace SW

/-! ## Lemmas on the version-comparison loop -/

/-- If the loop reports `fresh` newer with `cached` exhausted, the swapped
comparison (fresh exhausted) reports not newer. -/
theorem cmpNil_of_cmpSegs_nil (xs : List Int) (h : cmpSegs xs [] = true) :
    cmpNil xs = false := by
  induction xs with
  | nil => simp [cmpSegs, cmpNil] at h
  | cons f fs ih =>
    simp only [cmpSegs] at h
    simp only [cmpNil]
    by_cases h1 : f > 0
    · have h2 : ¬ 0 > f := by omega
      have h3 : 0 < f := h1
      simp [h2, h3]
    · by_cases h2 : f < 0
      · simp [h1, h2] at h
      · simp only [if_neg h1, if_neg h2] at h
        have h3 : ¬ 0 > f := by omega
        have h4 : ¬ 0 < f := by omega
        simp [h3, h4, ih h]

/-- If the loop reports `fresh` newer with `fresh` exhausted, the swapped
comparison (cached exhausted) reports not newer. -/
theorem cmpSegs_nil_of_cmpNil (xs : List Int) (h : cmpNil xs = true) :
    cmpSegs xs [] = false := by
  induction xs with
  | nil => simp [cmpNil] at h
  | cons c cs ih =>
    simp only [cmpNil] at h
    simp only [cmpSegs]
    by_cases h1 : 0 > c
    · have h2 : ¬ c > 0 := by omega
      have h3 : c < 0 := by omega
      simp [h2, h3]
    · by_cases h2 : 0 < c
      · simp [h1, h2] at h
      · simp only [if_neg h1, if_neg h2] at h
        have h3 : ¬ c > 0 := by omega
        have h4 : ¬ c < 0 := by omega
        simp [h3, h4, ih h]

/-- The comparison loop never reports a segment list newer than itself. -/
theorem cmpSegs_self (xs : List Int) : cmpSegs xs xs = false := by
  induction xs with
  | nil => rfl
  | cons x xs ih =>
    simp only [cmpSegs]
    simp [lt_irrefl, ih]

/-- The comparison loop is antisymmetric: if it reports `xs` newer than `ys`,
it does not report `ys` newer than `xs`. -/
theorem cmpSegs_antisymm (xs ys : List Int) (h : cmpSegs xs ys = true) :
    cmpSegs ys xs = false := by
  induction xs generalizing ys with
  | nil => exact cmpSegs_nil_of_cmpNil ys h
  | cons f fs ih =>
    cases ys with
    | nil => exact cmpNil_of_cmpSegs_nil (f :: fs) h
    | cons c cs =>
      simp only [cmpSegs] at h ⊢
      rcases lt_trichotomy f c with hlt | heq | hgt
      · have : ¬ f > c := by omega
        simp [this, hlt] at h
      · subst heq
        simp only [if_neg (lt_irrefl f)] at h ⊢
        exact ih cs h
      · have h1 : ¬ c > f := by omega
        have h2 : c < f := hgt
        simp [h1, h2]

/-! ## Claim theorems -/

/-- C1 (counterexample): the request whose URL is exactly `MANIFEST_URL` is
dispatched to the Feed Strategy, not the Manifest Strategy — the fetch
listener tests the feed condition first and the manifest URL's host is the
feed host while its path `/JuanLuisClaure/rss-fundacional/main/manifest.json`
contains `"rss"`. -/
theorem classify_manifest_url_not_manifest :
    classify MANIFEST_URL = Strategy.feed ∧
    classify MANIFEST_URL ≠ Strategy.manifest := by decide

/-- C1 (amended): every request matching the feed condition — including the
manifest URL itself — selects the Feed Strategy, and every request not
matching the feed condition selects the Generic Strategy; the Manifest branch
requires URL equality with `MANIFEST_URL`, which always satisfies the feed
condition, so that branch is unreachable. -/
theorem dispatch_feed_first (u : String) :
    (feedCond u = true → classify u = Strategy.feed) ∧
    (feedCond u = false → classify u = Strategy.generic) ∧
    classify MANIFEST_URL = Strategy.feed := by
  refine ⟨fun h => by simp [classify, h], fun h => ?_, by decide⟩
  have hne : u ≠ MANIFEST_URL := by
    intro he
    rw [he] at h
    exact absurd h (by decide)
  simp [classify, h, hne]

/-- C1 (witness for the amended theorem): a URL matching neither condition is
dispatched to the Generic Strategy. -/
theorem dispatch_feed_first_witness :
    feedCond "https://example.com/page" = false ∧
    classify "https://example.com/page" = Strategy.generic :=
  ⟨by decide, (dispatch_feed_first "https://example.com/page").2.1 (by decide)⟩

/-- C2 (code bug): with no cached entry and a rejecting network fetch, each of
the three strategies propagates the rejection (the strategy's promise settles
with the fetch error) instead of resolving with the 503 fallback of its
`catch` block — `return cachedResponse || fetchPromise` hands the unawaited
`fetchPromise` out of the `try`, so the `catch` never sees the rejection. -/
theorem fetch_failure_rejects :
    (staleWhileRevalidate { url := "https://example.com/data", method := "GET" }
        [] (.failure "NetworkError")).response = .error "NetworkError" ∧
    (staleWhileRevalidateFeed
        { url := "https://raw.githubusercontent.com/u/r/feed.rss", method := "GET" }
        [] (.failure "NetworkError")).response = .error "NetworkError" ∧
    (staleWhileRevalidateManifest (fun _ => none)
        { url := MANIFEST_URL, method := "GET" }
        [] (.failure "NetworkError")).response = .error "NetworkError" :=
  ⟨rfl, rfl, rfl⟩

/-- C3: no strategy ever writes a cache entry for a non-GET request or a
non-200 response: if the request's method is not `GET`, or the fetch outcome
is not a status-200 response, all three strategies leave the Cache Store
unchanged (the Generic Strategy guards the write itself; the Feed and
Manifest strategies guard only on status 200, but for a non-GET request their
`cache.put` is a rejected, unawaited promise that stores nothing). -/
theorem cache_write_only_get_200 (request : Request) (cache : Cache)
    (oc : FetchOutcome) (parse : Response → Option JSVal)
    (h : request.method ≠ "GET" ∨ ∀ r, oc = .success r → r.status ≠ 200) :
    (staleWhileRevalidate request cache oc).cache = cache ∧
    (staleWhileRevalidateFeed request cache oc).cache = cache ∧
    (staleWhileRevalidateManifest parse request cache oc).cache = cache := by
  have hput : request.method ≠ "GET" → ∀ r, cachePut cache request r = cache := by
    intro hm r
    simp [cachePut, hm]
  cases oc with
  | failure e => exact ⟨rfl, rfl, rfl⟩
  | success r =>
    rcases h with hm | hs
    · refine ⟨?_, ?_, ?_⟩
      · simp [staleWhileRevalidate, hm]
      · simp only [staleWhileRevalidateFeed]
        split
        · simp [hput hm]
        · rfl
      · simp only [staleWhileRevalidateManifest]
        split
        · split
          · split
            · simp [hput hm]
            · rfl
          · simp [hput hm]
        · rfl
    · have h200 : r.status ≠ 200 := hs r rfl
      refine ⟨?_, ?_, ?_⟩
      · simp [staleWhileRevalidate, h200]
      · simp [staleWhileRevalidateFeed, h200]
      · simp [staleWhileRevalidateManifest, h200]

/-- C3 (witness): a POST request through the Feed Strategy with a successful
200 fetch leaves the Cache Store unchanged. -/
theorem cache_write_only_get_200_witness :
    (staleWhileRevalidateFeed
        { url := "https://raw.githubusercontent.com/u/r/feed.rss", method := "POST" }
        [] (.success { status := 200, body := "x" })).cache = [] :=
  (cache_write_only_get_200
      { url := "https://raw.githubusercontent.com/u/r/feed.rss", method := "POST" }
      [] (.success { status := 200, body := "x" }) (fun _ => none)
      (Or.inl (by decide))).2.1

/-- C4: `isNewerVersion` satisfies the five documented test vectors. -/
theorem isNewerVersion_test_vectors :
    isNewerVersion (.str "1.2.3") (.str "1.2.4") = false ∧
    isNewerVersion (.str "1.3.0") (.str "1.2.9") = true ∧
    isNewerVersion (.str "1.2") (.str "1.2.0") = false ∧
    isNewerVersion (.str "2") .null = true ∧
    isNewerVersion .null (.str "1.0.0") = false := by
  refine ⟨by decide, by decide, by decide, by decide, by decide⟩

/-- C5: for dotted version strings (non-empty, hence truthy) `A` and `B`,
`isNewerVersion A B` and `isNewerVersion B A` are never both true, and
`isNewerVersion A A` is always false. -/
theorem isNewerVersion_antisymm_irrefl :
    (∀ A B : String, A ≠ "" → B ≠ "" →
        ¬(isNewerVersion (.str A) (.str B) = true ∧
          isNewerVersion (.str B) (.str A) = true)) ∧
    (∀ A : String, A ≠ "" → isNewerVersion (.str A) (.str A) = false) := by
  constructor
  · rintro A B hA hB ⟨h1, h2⟩
    simp only [isNewerVersion, jsFalsy] at h1 h2
    rw [if_neg (by simp [hB]), if_neg (by simp [hA])] at h1
    rw [if_neg (by simp [hA]), if_neg (by simp [hB])] at h2
    exact absurd h2 (by simp [cmpSegs_antisymm _ _ h1])
  · intro A hA
    simp only [isNewerVersion, jsFalsy]
    rw [if_neg (by simp [hA]), if_neg (by simp [hA])]
    exact cmpSegs_self _

/-- C5 (witness): antisymmetry at `"1.2"` vs `"1.3"` and irreflexivity at
`"1.2"`. -/
theorem isNewerVersion_antisymm_irrefl_witness :
    ¬(isNewerVersion (.str "1.2") (.str "1.3") = true ∧
      isNewerVersion (.str "1.3") (.str "1.2") = true) ∧
    isNewerVersion (.str "1.2") (.str "1.2") = false :=
  ⟨isNewerVersion_antisymm_irrefl.1 "1.2" "1.3" (by decide) (by decide),
   isNewerVersion_antisymm_irrefl.2 "1.2" (by decide)⟩

/-- C6: in the Manifest Strategy, a 200 background fetch whose fresh manifest
parses to a version that is not strictly newer than the cached one returns
the response to the caller (the cached response when present, else the fresh
one) while leaving the Cache Store unchanged — no `cache.put` occurs. -/
theorem manifest_not_newer_preserves_cache (parse : Response → Option JSVal)
    (request : Request) (cache : Cache) (r : Response) (v : JSVal)
    (h200 : r.status = 200) (hp : parse r = some v)
    (hnn : isNewerVersion v (cachedVersionOf parse cache request) = false) :
    (staleWhileRevalidateManifest parse request cache (.success r)).cache = cache ∧
    (staleWhileRevalidateManifest parse request cache (.success r)).response =
      .ok ((cacheMatch cache request).getD r) := by
  simp [staleWhileRevalidateManifest, h200, hp, hnn]

/-- C6 (witness): a cached manifest with version `"2.0.0"` and a fresh 200
fetch with version `"1.0.0"` leave the cache entry untouched. -/
theorem manifest_not_newer_preserves_cache_witness :
    (staleWhileRevalidateManifest
        (fun resp => if resp.body == "new" then some (.str "1.0.0") else some (.str "2.0.0"))
        { url := MANIFEST_URL, method := "GET" }
        [(MANIFEST_URL, { status := 200, body := "old" })]
        (.success { status := 200, body := "new" })).cache
      = [(MANIFEST_URL, { status := 200, body := "old" })] :=
  (manifest_not_newer_preserves_cache
      (fun resp => if resp.body == "new" then some (.str "1.0.0") else some (.str "2.0.0"))
      { url := MANIFEST_URL, method := "GET" }
      [(MANIFEST_URL, { status := 200, body := "old" })]
      { status := 200, body := "new" } (JSVal.str "1.0.0")
      rfl (by decide) (by decide)).1

/-- C7: when the cache lookup finds an entry, the Generic Strategy's result is
that cached response, whatever the fetch outcome (success of any status or
rejection). -/
theorem generic_cached_response (request : Request) (cache : Cache) (r : Response)
    (h : cacheMatch cache request = some r) (oc : FetchOutcome) :
    (staleWhileRevalidate request cache oc).response = .ok r := by
  cases oc <;> simp [staleWhileRevalidate, h]

/-- C7 (witness): a cached entry is returned even when the network fetch
rejects. -/
theorem generic_cached_response_witness :
    (staleWhileRevalidate { url := "https://example.com/a", method := "GET" }
        [("https://example.com/a", { status := 200, body := "b" })]
        (.failure "down")).response = .ok { status := 200, body := "b" } :=
  generic_cached_response { url := "https://example.com/a", method := "GET" }
    [("https://example.com/a", { status := 200, body := "b" })]
    { status := 200, body := "b" } (by decide) (.failure "down")

/-- C8: a `{type: "SKIP_WAITING"}` message makes the worker invoke the
skip-waiting takeover (modelled from the spec — the message listener is in
the repository variant not under `src/`). -/
theorem skip_waiting_on_message (s : WorkerState) :
    (messageHandler "SKIP_WAITING" s).skipWaitingCalled = true := rfl

/-- C9: `isNewerVersion` treats any falsy cached version — the empty string
and the number `0` as much as `null` — as "no cached version": every fresh
value, including the empty string and a strictly older version, is reported
newer than the cached `""` (and than `0`); in particular
`isNewerVersion("", "")` is true, while against the truthy cached `"2.0.0"`
the same fresh `"1.0.0"` is not newer. -/
theorem isNewerVersion_falsy_cached :
    (∀ F : JSVal, isNewerVersion F (.str "") = true) ∧
    (∀ F : JSVal, isNewerVersion F (.num 0) = true) ∧
    isNewerVersion (.str "") (.str "") = true ∧
    isNewerVersion (.str "1.0.0") (.str "2.0.0") = false ∧
    isNewerVersion (.str "1.0.0") (.str "") = true :=
  ⟨fun _ => rfl, fun _ => rfl, rfl, by decide, rfl⟩

/-- C10: if fetching any one critical asset fails, `cache.addAll` rejects as a
whole — no critical asset at all is written — and the install handler still
completes (the rejection is swallowed), with `skipWaiting` invoked. -/
theorem install_swallows_addAll_failure (cache : Cache)
    (fetchResults : String → FetchOutcome)
    (h : ∃ u ∈ CRITICAL_ASSETS, fetchOk (fetchResults u) = false) :
    installHandler cache fetchResults =
      { cache := cache, completed := true, skipWaiting := true } := by
  obtain ⟨u, hu, hf⟩ := h
  have hall : CRITICAL_ASSETS.all (fun u => fetchOk (fetchResults u)) = false := by
    rw [List.all_eq_false]
    exact ⟨u, hu, by simp [hf]⟩
  simp [installHandler, addAll, hall]

/-- C10 (witness): with every asset fetch rejecting, install completes with an
unchanged (empty) Cache Store. -/
theorem install_swallows_addAll_failure_witness :
    installHandler [] (fun _ => .failure "offline") =
      { cache := [], completed := true, skipWaiting := true } :=
  install_swallows_addAll_failure [] (fun _ => .failure "offline")
    ⟨"/", by decide, rfl⟩

end SW
